import Mathlib

/-!
Verification of the DeepVerify web client (Next.js frontend, browser
extension, and frontend API client) against its natural-language
specification.  The definitions below are a shallow embedding of the
TypeScript/JavaScript client code: each React event handler is modelled as a
pure function from its inputs (component state, server response outcome) to
the new state together with the list of side effects (HTTP requests,
localStorage writes, navigations) it performs; numeric JavaScript values are
modelled as rationals.
-/

namespace DeepVerify

/-- JSON-like values, modelling the JavaScript values that client code
serialises into request bodies and reads out of responses. -/
inductive JsVal where
  | str (s : String)
  | num (q : ℚ)
  | bool (b : Bool)
  | arr (elems : List JsVal)
  | obj (fields : List (String × JsVal))

/-- Property access on a JSON object (JavaScript `v[key]`); `none` models
`undefined`. -/
def JsVal.lookup (v : JsVal) (key : String) : Option JsVal :=
  match v with
  | .obj fields => List.lookup key fields
  | _ => none

/-- An HTTP request issued by client code: method, base URL (the axios
`baseURL`, the extension's hard-coded host, or empty for a relative `fetch`),
path, and optional JSON body. -/
structure Request where
  method : String
  baseUrl : String
  path : String
  body : Option JsVal

/-- Default axios base URL from frontend/src/lib/api.ts
(`process.env.NEXT_PUBLIC_API_BASE || "https://..."`); the environment
variable being unset is modelled, so the default applies. -/
def API_BASE : String := "https://abdullahniyaxi-deepverify-backend.hf.space"

/-! Requests built by the frontend API client (frontend/src/lib/api.ts). -/

/-- Request issued by `getStats` in lib/api.ts. -/
def getStatsRequest : Request :=
  ⟨"GET", API_BASE, "/api/v1/stats", none⟩

/-- Request issued by `reviewHistory` in lib/api.ts. -/
def reviewHistoryRequest (history_id : String) (correct : Bool) : Request :=
  ⟨"POST", API_BASE, "/api/v1/history/review",
    some (.obj [("history_id", .str history_id), ("correct", .bool correct)])⟩

/-- Request issued by `chatAI` in lib/api.ts. -/
def chatAIRequest (message : String) : Request :=
  ⟨"POST", API_BASE, "/api/v1/chat", some (.obj [("message", .str message)])⟩

/-- Request issued by `signup` in frontend/src/lib/auth.ts. -/
def signupRequest (name email password language_pref : String) : Request :=
  ⟨"POST", API_BASE, "/api/v1/auth/signup",
    some (.obj [("name", .str name), ("email", .str email),
      ("password", .str password), ("language_pref", .str language_pref)])⟩

/-- Request issued by `login` in frontend/src/lib/auth.ts. -/
def loginRequest (email password : String) : Request :=
  ⟨"POST", API_BASE, "/api/v1/auth/login",
    some (.obj [("email", .str email), ("password", .str password)])⟩

/-- Request issued by `handleAnalyze` on the home page
(frontend/src/pages/index.tsx). -/
def analyzeRequest (text : String) : Request :=
  ⟨"POST", API_BASE, "/api/v1/analyze", some (.obj [("text", .str text)])⟩

/-- Request issued by `load` on the dashboard page
(frontend/src/pages/dashboard.tsx). -/
def historyRequest : Request :=
  ⟨"GET", API_BASE, "/api/v1/history", none⟩

/-- Request issued by `analyze` on the bulk-analyze page
(frontend/src/pages/bulk-analyze.tsx); the `fetch` URL is relative. -/
def analyzeBatchRequest (texts : List String) : Request :=
  ⟨"POST", "", "/api/v1/analyze/batch",
    some (.obj [("texts", .arr (texts.map .str))])⟩

/-- Request issued by the browser extension (both the popup analyze-click
handler in popup.js and the context-menu listener in background.js). -/
def extensionAnalyzeRequest (text : String) : Request :=
  ⟨"POST", "http://localhost:8000", "/api/v1/analyze",
    some (.obj [("text", .str text)])⟩

/-! The AuthMeter component (frontend/src/components/AuthMeter.tsx). -/

/-- Rendered output of the AuthMeter component: the meter-fill width in
percent, the CSS colour applied to the label, and the label text. -/
structure AuthMeterView where
  fillWidthPct : ℚ
  labelColor : String
  labelText : String

/-- The AuthMeter component body: `clamped = Math.max(0, Math.min(100,
score))` gives the fill width, and the label colour is `score >= 50 ?
"var(--good)" : "var(--bad)"` on the unclamped score. -/
def authMeter (score : ℚ) (label : String) : AuthMeterView :=
  { fillWidthPct := max 0 (min 100 score)
    labelColor := if 50 ≤ score then "var(--good)" else "var(--bad)"
    labelText := label }

/-! Score derivation on the home page (frontend/src/pages/index.tsx):
`realScore = (prob["Real News"] ?? 0) * 100`, `fakeScore = (prob["Fake
News"] ?? 0) * 100`, `isReal = realScore >= fakeScore`, `meterScore = isReal
? realScore : fakeScore`, `meterLabel = isReal ? "Real" : "Fake"`. -/

/-- The `prob` state of the home page (`Record<string, number>`). -/
abbrev Prob := List (String × ℚ)

/-- One score looked up in `prob` with JavaScript `?? 0` defaulting. -/
def probScore (prob : Prob) (key : String) : ℚ :=
  (List.lookup key prob).getD 0

/-- Home page `realScore`. -/
def realScore (prob : Prob) : ℚ := probScore prob "Real News" * 100

/-- Home page `fakeScore`. -/
def fakeScore (prob : Prob) : ℚ := probScore prob "Fake News" * 100

/-- Home page `isReal` (`realScore >= fakeScore`). -/
def isReal (prob : Prob) : Bool := fakeScore prob ≤ realScore prob

/-- Home page `meterScore`. -/
def meterScore (prob : Prob) : ℚ :=
  if isReal prob then realScore prob else fakeScore prob

/-- Home page `meterLabel`. -/
def meterLabel (prob : Prob) : String :=
  if isReal prob then "Real" else "Fake"

/-! The dashboard statistics row (frontend/src/pages/dashboard.tsx). -/

/-- The stats object returned by GET /api/v1/stats, as consumed by the
dashboard (all fields JavaScript numbers). -/
structure Stats where
  total_users : ℚ
  total_analyses : ℚ
  total_real : ℚ
  total_fake : ℚ
  total_uncertain : ℚ
  total_reviews : ℚ
  correct_votes : ℚ

/-- JavaScript `Number.prototype.toFixed(1)`, kept as the rounded rational
value: the nearest multiple of 1/10, ties toward positive infinity, as the
ECMAScript toFixed algorithm picks the larger candidate on a tie. -/
def toFixed1 (q : ℚ) : ℚ := (round (q * 10) : ℚ) / 10

/-- Rendered value of one dashboard statistic cell: either a percentage
(shown as `value.toFixed(1) + "%"`, the pre-formatting value kept as a
rational) or the em-dash placeholder. -/
inductive StatValueView where
  | percentText (value : ℚ)
  | emDash
deriving DecidableEq

/-- The Accuracy cell of the dashboard statistics row:
`stats.total_reviews > 0 ? ((stats.correct_votes / stats.total_reviews) *
100).toFixed(1) + "%" : "—"`. -/
def accuracyStatView (st : Stats) : StatValueView :=
  if 0 < st.total_reviews then
    .percentText (toFixed1 (st.correct_votes / st.total_reviews * 100))
  else
    .emDash

/-- JavaScript `String.prototype.trim()`, modelled over the character list:
drop whitespace from both ends. -/
def jsTrim (s : String) : String :=
  ⟨((s.data.dropWhile Char.isWhitespace).reverse.dropWhile
      Char.isWhitespace).reverse⟩

/-! The chat page (frontend/src/pages/chat.tsx). -/

/-- A chat log message (`type Msg = { from: "user" | "bot"; text: string;
id: string }`); `sender` models the `from` field, which is not a legal Lean
field name. -/
structure ChatMsg where
  sender : String
  text : String
  id : String

/-- The chat page state relevant to `send`. -/
structure ChatState where
  log : List ChatMsg
  input : String
  loading : Bool

/-- The canned error text appended by the catch branch of `send`. -/
def chatErrorText : String :=
  "❌ Sorry, something went wrong. Please check your connection and try again."

/-- The synchronous part of `ChatPage.send`, with `Date.now()` passed in as
`now`: `if (!input.trim() || loading) return;` guards the call; otherwise the
user message is appended, the input cleared, `loading` set, and `chatAI` is
invoked with the message text.  Returns the new state and the requests
issued. -/
def chatSend (now : ℕ) (s : ChatState) : ChatState × List Request :=
  if jsTrim s.input = "" ∨ s.loading then (s, [])
  else
    ({ log := s.log ++ [⟨"user", s.input, toString now⟩]
       input := ""
       loading := true },
     [chatAIRequest s.input])

/-- The continuation of `ChatPage.send` once the `chatAI` call settles:
`some reply` is the try branch, `none` the catch branch; the finally branch
clears `loading` either way.  No request is issued. -/
def chatResolve (now : ℕ) (s : ChatState) (outcome : Option String) :
    ChatState × List Request :=
  match outcome with
  | some reply =>
      ({ s with
          log := s.log ++ [⟨"bot", reply, toString (now + 1)⟩]
          loading := false }, [])
  | none =>
      ({ s with
          log := s.log ++ [⟨"bot", chatErrorText, toString (now + 1)⟩]
          loading := false }, [])

/-- Disabled condition of the chat Send button
(`disabled={!input.trim() || loading}`). -/
def chatSendDisabled (input : String) (loading : Bool) : Bool :=
  jsTrim input == "" || loading

/-- Disabled condition of the SearchBar Analyze button
(`disabled={loading || value.trim().length === 0}`,
frontend/src/components/SearchBar.tsx). -/
def searchBarAnalyzeDisabled (loading : Bool) (value : String) : Bool :=
  loading || (jsTrim value).length == 0

/-! The home page analyzer (frontend/src/pages/index.tsx). -/

/-- Home page state relevant to `handleAnalyze`. -/
structure HomeState where
  input : String
  html : String
  verdict : String
  prob : Prob
  sources : List JsVal
  loading : Bool
  language : Option String

/-- The synchronous part of `Home.handleAnalyze`: sets `loading` and posts
the input text to /api/v1/analyze. -/
def homeAnalyzeStart (s : HomeState) : HomeState × List Request :=
  ({ s with loading := true }, [analyzeRequest s.input])

/-- The fields of the /api/v1/analyze response the home page reads
(`res.data.verdict`, `.html`, `.scores`, `.sources`, `.language`); the
optional fields model the `|| {}`, `|| []`, `|| null` defaulting. -/
structure AnalyzeResponse where
  verdict : String
  html : String
  scores : Option Prob
  sources : Option (List JsVal)
  language : Option String

/-- The continuation of `Home.handleAnalyze` once the POST settles: the try
branch stores the response fields and fires a follow-up `getStats` request;
the catch branch stores the error display and issues no request; the finally
branch clears `loading`. -/
def homeAnalyzeResolve (s : HomeState) (outcome : Option AnalyzeResponse) :
    HomeState × List Request :=
  match outcome with
  | some r =>
      ({ s with
          verdict := r.verdict
          html := r.html
          prob := r.scores.getD []
          sources := r.sources.getD []
          language := r.language
          loading := false },
       [getStatsRequest])
  | none =>
      ({ s with
          verdict := "Error"
          html := "<div style=\x27color:red\x27>Backend error</div>"
          prob := []
          sources := []
          loading := false }, [])

/-! The dashboard page (frontend/src/pages/dashboard.tsx) and the
HistoryItem component (frontend/src/components/HistoryItem.tsx). -/

/-- A history record as returned by GET /api/v1/history (the `Item` type of
dashboard.tsx and HistoryItem.tsx); `mongoId` models the `_id` field. -/
structure HistoryRecord where
  mongoId : String
  query : String
  verdict : String
  confidence : ℚ
  reviewed : Bool
  correct : Option Bool

/-- The review section of a rendered HistoryItem: either the
`Reviewed: Correct/Incorrect` tag (when `item.reviewed`) or the two review
buttons. -/
inductive ReviewSectionView where
  | reviewedTag (correctShown : Bool)
  | reviewButtons
deriving DecidableEq

/-- The rendered output of one HistoryItem: the id line, the query line, the
verdict, the confidence (shown as `confidence?.toFixed(1)` percent), and the
review section. -/
structure HistoryView where
  idShown : String
  queryShown : String
  verdictShown : String
  confidenceShown : ℚ
  reviewSection : ReviewSectionView

/-- The HistoryItem component body; `item.correct` is truthy exactly when it
is `some true` (null and false are falsy), modelled with `getD false`. -/
def historyItemView (it : HistoryRecord) : HistoryView :=
  { idShown := it.mongoId
    queryShown := it.query
    verdictShown := it.verdict
    confidenceShown := toFixed1 it.confidence
    reviewSection :=
      if it.reviewed then .reviewedTag (it.correct.getD false)
      else .reviewButtons }

/-- The requests issued by one run of `Dashboard.load`: the awaited GET to
/api/v1/history followed by the fire-and-forget `getStats()`. -/
def dashboardLoadRequests : List Request := [historyRequest, getStatsRequest]

/-- The dashboard history list: `items.map((it) => <HistoryItem ... />)`. -/
def renderHistoryList (items : List HistoryRecord) : List HistoryView :=
  items.map historyItemView

/-! The signup page (frontend/src/pages/signup.tsx) together with `signup`
and `saveTokens` from frontend/src/lib/auth.ts. -/

/-- The token payload of a successful signup response. -/
structure TokenOut where
  access_token : String
  refresh_token : String

/-- A browser side effect performed by a page handler.  `setErrorText`
models the catch branch's `setErr(...)`; the message it derives from the
error response is not inspected by any claim and is abstracted. -/
inductive BrowserEffect where
  | http (r : Request)
  | localStorageSet (key value : String)
  | navigate (route : String)
  | setErrorText

/-- The HTTP requests among a list of effects. -/
def httpEffects (es : List BrowserEffect) : List Request :=
  es.filterMap (fun e => match e with | .http r => some r | _ => none)

/-- The effects of one `SignupPage.submit` with the entered name, email and
password: `signup(name, email, pw, "en")` posts the signup body, and on a
successful response `saveTokens` stores both tokens in localStorage before
`router.push("/")`; the catch branch only sets the error text. -/
def signupSubmit (name email pw : String) (outcome : Option TokenOut) :
    List BrowserEffect :=
  match outcome with
  | some t =>
      [.http (signupRequest name email pw "en"),
       .localStorageSet "access_token" t.access_token,
       .localStorageSet "refresh_token" t.refresh_token,
       .navigate "/"]
  | none => [.http (signupRequest name email pw "en"), .setErrorText]

/-! The browser extension (browser-extension/popup.js and
browser-extension/background.js). -/

/-- The verdict and confidence fields the extension reads from the analyze
response; `confidence` holds the JavaScript string conversion of the numeric
value, as both handlers only interpolate it into display strings. -/
structure ExtensionAnalyzeResponse where
  verdict : String
  confidence : String

/-- Requests issued by the popup analyze-click handler: exactly one POST of
the page text to /api/v1/analyze. -/
def popupAnalyzeClick (pageText : String) : List Request :=
  [extensionAnalyzeRequest pageText]

/-- The innerHTML the popup writes into the result element from the parsed
response. -/
def popupResultHtml (d : ExtensionAnalyzeResponse) : String :=
  "\n      <h3>" ++ d.verdict ++ "</h3>\n      <p>Confidence: " ++
    d.confidence ++ "%</p>\n    "

/-- Requests issued by the background context-menu listener: the analyze
POST is issued exactly when the clicked menu item is `analyzeText`. -/
def backgroundContextMenuStep (menuItemId selectionText : String) :
    List Request :=
  if menuItemId = "analyzeText" then [extensionAnalyzeRequest selectionText]
  else []

/-- A chrome notification as created by background.js. -/
structure ChromeNotification where
  kind : String
  iconUrl : String
  title : String
  message : String

/-- The notification background.js shows from the parsed response
(`message:` the template `verdict (confidence%)`). -/
def backgroundNotification (d : ExtensionAnalyzeResponse) :
    ChromeNotification :=
  { kind := "basic", iconUrl := "icon.png", title := "VeriGlow Analysis",
    message := d.verdict ++ " (" ++ d.confidence ++ "%)" }

/-! Endpoint inventory for the README comparison. -/

/-- Every HTTP call site in the repository's client code (frontend API
client, auth helpers, pages, browser extension), as pairs of the call site
and the request path it targets. -/
def clientEndpoints : List (String × String) :=
  [("frontend/src/lib/api.ts getStats", getStatsRequest.path),
   ("frontend/src/lib/api.ts reviewHistory",
     (reviewHistoryRequest "id" true).path),
   ("frontend/src/lib/api.ts chatAI", (chatAIRequest "m").path),
   ("frontend/src/lib/auth.ts signup", (signupRequest "n" "e" "p" "en").path),
   ("frontend/src/lib/auth.ts login", (loginRequest "e" "p").path),
   ("frontend/src/pages/index.tsx handleAnalyze", (analyzeRequest "t").path),
   ("frontend/src/pages/dashboard.tsx load", historyRequest.path),
   ("frontend/src/pages/bulk-analyze.tsx analyze",
     (analyzeBatchRequest ["t"]).path),
   ("browser-extension/popup.js analyze click",
     (extensionAnalyzeRequest "t").path),
   ("browser-extension/background.js contextMenus.onClicked",
     (extensionAnalyzeRequest "t").path)]

/-- The endpoint paths of the README's API overview table (README "API
overview" section: signup, login, analyze, chat, history, stats, health). -/
def readmeApiOverviewPaths : List String :=
  ["/api/v1/auth/signup", "/api/v1/auth/login", "/api/v1/analyze",
   "/api/v1/chat", "/api/v1/history", "/api/v1/stats", "/health"]

/-! Helper lemmas shared by the theorems below. -/

/-- Scaling both arguments of a max by 100 factors out. -/
lemma max_mul_hundred (a b : ℚ) : max (a * 100) (b * 100) = 100 * max a b := by
  rcases le_total a b with h | h
  · rw [max_eq_right (by linarith), max_eq_right h]; ring
  · rw [max_eq_left (by linarith), max_eq_left h]; ring

/-- The label test of the home page meter reduces to the score comparison. -/
lemma meterLabel_eq_real_iff (prob : Prob) :
    meterLabel prob = "Real" ↔ fakeScore prob ≤ realScore prob := by
  unfold meterLabel
  split_ifs with h
  · exact iff_of_true rfl (by simpa [isReal] using h)
  · refine iff_of_false (by decide) ?_
    simpa [isReal] using h

/-- C1, as stated, is false: the frontend API client's `reviewHistory`
issues a request to /api/v1/history/review, a path absent from the README's
API overview. -/
theorem review_endpoint_undocumented :
    ("frontend/src/lib/api.ts reviewHistory", "/api/v1/history/review")
        ∈ clientEndpoints ∧
      "/api/v1/history/review" ∉ readmeApiOverviewPaths := by
  constructor
  · decide
  · decide

/-- C1 (amended): every path any client component requests is documented in
the README's API overview, except /api/v1/history/review (the dashboard's
review action) and /api/v1/analyze/batch (the bulk-analyze page), which are
invoked but absent from the overview. -/
theorem client_endpoints_documented_with_two_exceptions
    (e : String × String) (h : e ∈ clientEndpoints) :
    e.2 ∈ readmeApiOverviewPaths ∨ e.2 = "/api/v1/history/review" ∨
      e.2 = "/api/v1/analyze/batch" := by
  fin_cases h <;> decide

/-- Witness for the amended C1: the chat call site hits a documented path. -/
theorem client_endpoints_documented_witness :
    ("frontend/src/lib/api.ts chatAI", "/api/v1/chat").2
        ∈ readmeApiOverviewPaths ∨
      ("frontend/src/lib/api.ts chatAI", "/api/v1/chat").2
        = "/api/v1/history/review" ∨
      ("frontend/src/lib/api.ts chatAI", "/api/v1/chat").2
        = "/api/v1/analyze/batch" :=
  client_endpoints_documented_with_two_exceptions _ (by decide)

/-- C2, as stated, is false: the chat page limits in-flight requests with
its own loading guard — the very same send that issues a request when no
request is pending is a no-op while one is, and the send button is disabled
while loading. -/
theorem chat_send_inflight_limited :
    (chatSend 0 ⟨[], "hi", true⟩).2 = [] ∧
      (chatSend 0 ⟨[], "hi", false⟩).2 = [chatAIRequest "hi"] ∧
      chatSendDisabled "hi" true = true ∧
      searchBarAnalyzeDisabled true "some text" = true := by
  refine ⟨?_, ?_, by decide, by decide⟩
  · simp [chatSend, jsTrim]
  · unfold chatSend
    rw [if_neg (by decide)]

/-- C2 (amended): the repository adds no custom scheduling or reordering of
requests, but it does limit in-flight requests client-side: a chat send
issues at most one request, issues none while a previous request is pending
(`loading`), issues exactly the one chat request when idle with nonblank
input, and the submit buttons are disabled while loading. -/
theorem chat_send_request_discipline (now : ℕ) (s : ChatState) :
    ((chatSend now s).2 = [] ∨ (chatSend now s).2 = [chatAIRequest s.input]) ∧
      (s.loading = true → (chatSend now s).2 = []) ∧
      (s.loading = false → jsTrim s.input ≠ "" →
        (chatSend now s).2 = [chatAIRequest s.input] ∧
          (chatSend now s).1.loading = true) ∧
      chatSendDisabled s.input true = true ∧
      searchBarAnalyzeDisabled true s.input = true := by
  refine ⟨?_, ?_, ?_, by simp [chatSendDisabled], by simp [searchBarAnalyzeDisabled]⟩
  · unfold chatSend
    split_ifs with h
    · exact Or.inl rfl
    · exact Or.inr rfl
  · intro h
    unfold chatSend
    rw [if_pos (Or.inr (by simp [h]))]
  · intro hl ht
    unfold chatSend
    rw [if_neg (by simp [hl, ht])]
    exact ⟨rfl, rfl⟩

/-- Witness for the amended C2 at a concrete idle state. -/
theorem chat_send_request_discipline_witness :
    (chatSend 3 ⟨[], "check this", false⟩).2 = [chatAIRequest "check this"] ∧
      (chatSend 3 ⟨[], "check this", false⟩).1.loading = true :=
  (chat_send_request_discipline 3 ⟨[], "check this", false⟩).2.2.1 rfl
    (by decide)

/-- C3: when a client request fails, no component retries it or issues any
replacement request — the chat page's catch branch only appends the canned
error message and clears loading, and the home page's catch branch only
installs the error display (verdict "Error", error html, cleared scores and
sources) and clears loading. -/
theorem failure_paths_issue_no_requests (now : ℕ) (s : ChatState)
    (hs : HomeState) :
    (chatResolve now s none).2 = [] ∧
      (chatResolve now s none).1.log
        = s.log ++ [⟨"bot", chatErrorText, toString (now + 1)⟩] ∧
      (chatResolve now s none).1.loading = false ∧
      (homeAnalyzeResolve hs none).2 = [] ∧
      (homeAnalyzeResolve hs none).1.verdict = "Error" ∧
      (homeAnalyzeResolve hs none).1.prob = [] ∧
      (homeAnalyzeResolve hs none).1.sources = [] ∧
      (homeAnalyzeResolve hs none).1.loading = false :=
  ⟨rfl, rfl, rfl, rfl, rfl, rfl, rfl, rfl⟩

/-- C4: each extension analyze action — the popup click (with the page text)
and the context-menu selection (with the selected text) — issues exactly the
POST of a JSON body carrying the text to /api/v1/analyze, and the rendered
result (popup innerHTML, background notification message) contains the
response's verdict and confidence fields. -/
theorem extension_analyze_rest_roundtrip (pageText selText : String)
    (d : ExtensionAnalyzeResponse) :
    popupAnalyzeClick pageText = [extensionAnalyzeRequest pageText] ∧
      backgroundContextMenuStep "analyzeText" selText
        = [extensionAnalyzeRequest selText] ∧
      (extensionAnalyzeRequest selText).method = "POST" ∧
      (extensionAnalyzeRequest selText).baseUrl
          ++ (extensionAnalyzeRequest selText).path
        = "http://localhost:8000/api/v1/analyze" ∧
      ((extensionAnalyzeRequest selText).body.map (fun b => b.lookup "text"))
        = some (some (.str selText)) ∧
      d.verdict.data <:+: (popupResultHtml d).data ∧
      d.confidence.data <:+: (popupResultHtml d).data ∧
      d.verdict.data <:+: (backgroundNotification d).message.data ∧
      d.confidence.data <:+: (backgroundNotification d).message.data := by
  refine ⟨rfl, ?_, rfl, rfl, rfl, ?_, ?_, ?_, ?_⟩
  · unfold backgroundContextMenuStep
    rw [if_pos rfl]
  · exact ⟨"\n      <h3>".data,
      ("</h3>\n      <p>Confidence: " ++ d.confidence ++ "%</p>\n    ").data,
      by simp [popupResultHtml, String.data_append]⟩
  · exact ⟨("\n      <h3>" ++ d.verdict ++ "</h3>\n      <p>Confidence: ").data,
      "%</p>\n    ".data,
      by simp [popupResultHtml, String.data_append]⟩
  · exact ⟨[], (" (" ++ d.confidence ++ "%)").data,
      by simp [backgroundNotification, String.data_append]⟩
  · exact ⟨(d.verdict ++ " (").data, "%)".data,
      by simp [backgroundNotification, String.data_append]⟩

/-- C5: a dashboard load issues the GET to /api/v1/history (followed by the
stats GET), renders exactly one history entry per returned record showing
that record's query, verdict and confidence, and issues only bodiless GET
requests — so the load itself modifies no persisted record. -/
theorem dashboard_load_reads_and_renders (items : List HistoryRecord) :
    dashboardLoadRequests.map (fun r => (r.method, r.path))
        = [("GET", "/api/v1/history"), ("GET", "/api/v1/stats")] ∧
      (∀ r ∈ dashboardLoadRequests, r.method = "GET" ∧ r.body = none) ∧
      (renderHistoryList items).length = items.length ∧
      (∀ i : ℕ, (renderHistoryList items)[i]?
        = (items[i]?).map historyItemView) ∧
      (∀ it : HistoryRecord,
        (historyItemView it).queryShown = it.query ∧
          (historyItemView it).verdictShown = it.verdict ∧
          (historyItemView it).confidenceShown = toFixed1 it.confidence) := by
  refine ⟨rfl, ?_, ?_, ?_, ?_⟩
  · intro r hr
    simp only [dashboardLoadRequests, List.mem_cons, List.not_mem_nil,
      or_false] at hr
    rcases hr with rfl | rfl
    · exact ⟨rfl, rfl⟩
    · exact ⟨rfl, rfl⟩
  · simp [renderHistoryList]
  · intro i
    simp [renderHistoryList]
  · intro it
    exact ⟨rfl, rfl, rfl⟩

/-- C6: every submission of the signup form issues exactly one POST, to
/api/v1/auth/signup, carrying the entered name, email and password together
with the language preference "en"; and on a successful response the two
tokens are written to localStorage (access then refresh) before the
navigation home. -/
theorem signup_submit_single_post_and_token_order
    (name email pw : String) (outcome : Option TokenOut) :
    httpEffects (signupSubmit name email pw outcome)
        = [signupRequest name email pw "en"] ∧
      (signupRequest name email pw "en").method = "POST" ∧
      (signupRequest name email pw "en").path = "/api/v1/auth/signup" ∧
      (signupRequest name email pw "en").body
        = some (.obj [("name", .str name), ("email", .str email),
            ("password", .str pw), ("language_pref", .str "en")]) ∧
      (∀ t : TokenOut, signupSubmit name email pw (some t)
        = [.http (signupRequest name email pw "en"),
           .localStorageSet "access_token" t.access_token,
           .localStorageSet "refresh_token" t.refresh_token,
           .navigate "/"]) := by
  refine ⟨?_, rfl, rfl, rfl, fun t => rfl⟩
  cases outcome <;> rfl

/-- C7: the AuthMeter fill width is the clamp max(0, min(100, score)), hence
always within `[0, 100]`, while the label colour is the good colour exactly
when the unclamped score is at least 50. -/
theorem authMeter_clamped_width_color_threshold (score : ℚ) (label : String) :
    (authMeter score label).fillWidthPct = max 0 (min 100 score) ∧
      0 ≤ (authMeter score label).fillWidthPct ∧
      (authMeter score label).fillWidthPct ≤ 100 ∧
      ((authMeter score label).labelColor = "var(--good)" ↔ 50 ≤ score) := by
  refine ⟨rfl, le_max_left 0 _, ?_, ?_⟩
  · exact max_le (by norm_num) (min_le_left _ _)
  · have hc : (authMeter score label).labelColor
        = if 50 ≤ score then "var(--good)" else "var(--bad)" := rfl
    rw [hc]
    split_ifs with h
    · exact iff_of_true rfl h
    · exact iff_of_false (by decide) h

/-- C8: after a successful analysis the meter label is "Real" exactly when
the defaulted "Real News" score is at least the defaulted "Fake News" score
(so a tie, or both scores missing, gives "Real"), and the meter score is the
larger of the two scores scaled to a percentage. -/
theorem home_meter_label_score (prob : Prob) :
    (meterLabel prob = "Real" ↔
        probScore prob "Fake News" ≤ probScore prob "Real News") ∧
      meterLabel [] = "Real" ∧
      (List.lookup "Real News" prob = none →
        List.lookup "Fake News" prob = none → meterLabel prob = "Real") ∧
      meterScore prob = max (realScore prob) (fakeScore prob) ∧
      meterScore prob
        = 100 * max (probScore prob "Real News")
            (probScore prob "Fake News") := by
  have hmax : meterScore prob = max (realScore prob) (fakeScore prob) := by
    unfold meterScore
    split_ifs with h
    · have hf : fakeScore prob ≤ realScore prob := by simpa [isReal] using h
      exact (max_eq_left hf).symm
    · have hf : realScore prob ≤ fakeScore prob := by
        have := by simpa [isReal] using h
        linarith [this]
      exact (max_eq_right hf).symm
  refine ⟨?_, ?_, ?_, hmax, ?_⟩
  · rw [meterLabel_eq_real_iff]
    unfold fakeScore realScore
    exact mul_le_mul_right (by norm_num)
  · norm_num [meterLabel, isReal, realScore, fakeScore, probScore]
  · intro h1 h2
    rw [meterLabel_eq_real_iff]
    simp [fakeScore, realScore, probScore, h1, h2]
  · rw [hmax]
    unfold realScore fakeScore
    exact max_mul_hundred _ _

/-- C9: the dashboard Accuracy cell divides correct_votes by total_reviews
only under the guard total_reviews > 0, showing that quotient times 100
rounded to one decimal place, and shows the em-dash placeholder whenever the
guard fails — so the division is never evaluated on a zero denominator. -/
theorem dashboard_accuracy_division_guarded (st : Stats) :
    (0 < st.total_reviews → accuracyStatView st
        = .percentText (toFixed1 (st.correct_votes / st.total_reviews * 100))) ∧
      (st.total_reviews ≤ 0 → accuracyStatView st = .emDash) := by
  constructor
  · intro h
    unfold accuracyStatView
    rw [if_pos h]
  · intro h
    unfold accuracyStatView
    rw [if_neg (not_lt.mpr h)]

end DeepVerify
